import Mathlib

/-!
Verification of the ExpandScreen virtual display driver core.

The definitions below are a shallow embedding of the driver's C++ sources
(Edid.cpp, Monitor.cpp, Adapter.cpp, Ioctl.cpp, SwapChain.cpp, Driver.h).
Machine integers are modelled as `Nat`/`Int` with explicit reduction
`% 4294967296` at the points where 32-bit unsigned arithmetic can wrap, and
`% 256` where the source truncates to `BYTE`.  External host calls
(IddCx / WDF) are modelled by environments that carry the `NTSTATUS` each
call returns.
-/

set_option maxRecDepth 40000
set_option maxHeartbeats 2000000

/-! ## NTSTATUS values and the NT_SUCCESS test -/

def STATUS_SUCCESS : Int := 0

def STATUS_PENDING : Int := 0x103

def STATUS_INVALID_PARAMETER : Int := -1073741811

def STATUS_NOT_IMPLEMENTED : Int := -1073741822

def STATUS_INVALID_DEVICE_REQUEST : Int := -1073741808

/-- NT_SUCCESS macro: an NTSTATUS is a success iff its signed 32-bit value is
nonnegative.  Note that `STATUS_PENDING = 0x103` is a success value. -/
def NT_SUCCESS (status : Int) : Bool := decide (0 ≤ status)

/-- Driver.h line 150: the size of the buffer GenerateEdid writes and of the
monitor description submitted to the host. -/
def EDID_SIZE : Nat := 256

/-! ## The EDID encoder (Edid.cpp, GenerateEdid)

The source zeroes a 256-byte buffer, writes bytes 0 through 126 (constants
plus the fields computed from Width and Height), then stores at byte 127 the
checksum `(BYTE)(256 - sum of bytes 0..126)`.  Bytes 128..255 stay zero.
`edidBody` lists bytes 0..126 in order; all arithmetic is the source's
UINT arithmetic (wrap at 2^32) with `(BYTE)` casts rendered as `% 256`. -/

def edidBody (Width Height : Nat) : List Nat :=
  let pixelClock := Width * Height % 4294967296 * 60 % 4294967296 / 10000
  [0x00, 0xFF, 0xFF, 0xFF, 0xFF, 0xFF, 0xFF, 0x00,
   0x15, 0x30,
   0x01, 0x00,
   0x01, 0x00, 0x00, 0x00,
   0x01,
   0x24,
   0x01, 0x04,
   0x95,
   Width * 254 % 4294967296 / 960 / 10 % 256,
   Height * 254 % 4294967296 / 960 / 10 % 256,
   0x78,
   0x2A,
   0x0D, 0xC9, 0xA0, 0x57, 0x47, 0x98, 0x27, 0x12, 0x48, 0x4C,
   0x00, 0x00, 0x00]
  ++ List.replicate 16 0
  ++ [pixelClock % 256, pixelClock / 256 % 256,
      Width % 256, 0x30, Width / 256 % 16 * 16,
      Height % 256, 0x1E, Height / 256 % 16 * 16]
  ++ List.replicate 10 0
  ++ [0x00, 0x00, 0x00, 0xFC, 0x00]
  ++ [0x45, 0x78, 0x70, 0x61, 0x6E, 0x64, 0x53, 0x63, 0x72, 0x65, 0x65, 0x6E, 0x0A]
  ++ List.replicate 36 0
  ++ [0x00]

/-- Edid.cpp lines 156-162: the checksum byte.  The C accumulation into a
BYTE is a sum mod 256, and the final `(BYTE)(256 - checksum)` truncates 256
to 0 when the partial sum is divisible by 256. -/
def edidChecksumByte (Width Height : Nat) : Nat :=
  (256 - (edidBody Width Height).sum % 256) % 256

/-- Full content of the 256-byte buffer after GenerateEdid returns. -/
def edidBytes (Width Height : Nat) : List Nat :=
  edidBody Width Height ++ [edidChecksumByte Width Height] ++ List.replicate 128 0

/-- GenerateEdid (Edid.cpp 35-168).  The only failure path is a null output
buffer, modelled by the Boolean flag; otherwise the function writes
`edidBytes Width Height` and returns STATUS_SUCCESS. -/
def GenerateEdid (edidBufferIsNull : Bool) (Width Height : Nat) :
    Int × Option (List Nat) :=
  if edidBufferIsNull then (STATUS_INVALID_PARAMETER, none)
  else (STATUS_SUCCESS, some (edidBytes Width Height))

/-- Monitor description submitted to the host in CreateMonitor
(Monitor.cpp 69-79): `DataSize = EDID_SIZE` bytes of the buffer filled by
`GenerateEdid(edidData, 1920, 1080)`. -/
def monitorDescriptionData : List Nat := edidBytes 1920 1080

/-- MonitorDescription.DataSize as set in Monitor.cpp line 78. -/
def monitorDescriptionDataSize : Nat := EDID_SIZE

/-- Round-to-nearest division, used only to state the spec's claimed
physical-size formula `round(length * 254 / 9600)`. -/
def roundNearest (num den : Nat) : Nat := (num + den / 2) / den

/-- Physical-size formula exactly as the spec words it (round to nearest). -/
def specPhysicalSizeCm (lengthPx : Nat) : Nat := roundNearest (lengthPx * 254) 9600

/-! ## Generic checksum structure lemma -/

theorem edid_checksum_generic (body tail : List Nat) (c : Nat)
    (hlen : body.length = 127) (hc : c = (256 - body.sum % 256) % 256) :
    ((body ++ [c] ++ tail).take 128).sum % 256 = 0 ∧
    (body ++ [c] ++ tail).take 127 = body ∧
    (body ++ [c] ++ tail)[127]? = some c := by
  have hlen2 : (body ++ [c]).length = 128 := by
    simp [List.length_append, hlen]
  have htake128 : (body ++ [c] ++ tail).take 128 = body ++ [c] :=
    List.take_left' hlen2
  have htake127 : (body ++ [c] ++ tail).take 127 = body := by
    rw [List.take_append_of_le_length (by omega),
      List.take_append_of_le_length (le_of_eq hlen.symm), ← hlen, List.take_length]
  have hget : (body ++ [c] ++ tail)[127]? = some c := by
    rw [List.getElem?_append_left (by omega),
      List.getElem?_append_right (le_of_eq hlen), hlen]
    simp
  refine ⟨?_, htake127, hget⟩
  rw [htake128]
  have hsum : (body ++ [c]).sum = body.sum + c := by simp
  rw [hsum, hc]
  omega

/-- C1: for every width and height, with a non-null output buffer,
GenerateEdid succeeds and the 128-byte descriptor block it produces (the
first 128 bytes of the buffer) satisfies the checksum invariant: the block
sums to 0 mod 256, and byte 127 equals (256 - S) mod 256 where S is the sum
of bytes 0 through 126 (stated as (256 - S % 256) % 256, which is the same
residue). -/
theorem GenerateEdid_checksum_invariant (Width Height : Nat) :
    GenerateEdid false Width Height = (STATUS_SUCCESS, some (edidBytes Width Height)) ∧
    ((edidBytes Width Height).take 128).sum % 256 = 0 ∧
    (edidBytes Width Height)[127]? =
      some ((256 - ((edidBytes Width Height).take 127).sum % 256) % 256) := by
  obtain ⟨h0, h1, h2⟩ := edid_checksum_generic (edidBody Width Height)
    (List.replicate 128 0) (edidChecksumByte Width Height) rfl rfl
  refine ⟨rfl, ?_, ?_⟩
  · exact h0
  · unfold edidBytes
    rw [h1, h2]
    rfl

/-- C2 counterexample: the buffer submitted to the host at monitor creation
has DataSize = EDID_SIZE = 256 bytes, so it is not the 128-byte descriptor
block: the claim that the submitted block is exactly the 128-byte block is
false. -/
theorem monitor_description_not_128_bytes :
    monitorDescriptionDataSize = 256 ∧
    monitorDescriptionData.length = 256 ∧
    monitorDescriptionData ≠ (edidBytes 1920 1080).take 128 := by
  decide

/-- C2 amended: the descriptor encoder is a pure function of (width, height)
and fixed constants, and the buffer submitted to the host at monitor
creation is, byte-exact, the 256-byte (EDID_SIZE) buffer the encoder
produces for (1920, 1080); its first 128 bytes are the descriptor block and
its last 128 bytes are zero. -/
theorem monitor_description_exact (Width Height : Nat) :
    GenerateEdid false Width Height = (STATUS_SUCCESS, some (edidBytes Width Height)) ∧
    monitorDescriptionData = edidBytes 1920 1080 ∧
    monitorDescriptionData.length = EDID_SIZE ∧
    monitorDescriptionData.drop 128 = List.replicate 128 0 := by
  refine ⟨rfl, rfl, rfl, ?_⟩
  decide

/-- C4: the descriptor generated for 1920 x 1080 carries pixel clock 12441 =
1920 * 1080 * 60 / 10000 in little-endian bytes 54-55 (0x99, 0x30),
horizontal physical size byte 50 and vertical physical size byte 28. -/
theorem edid_1920_1080_values :
    (edidBytes 1920 1080)[54]? = some 0x99 ∧
    (edidBytes 1920 1080)[55]? = some 0x30 ∧
    0x99 + 256 * 0x30 = 12441 ∧
    12441 = 1920 * 1080 * 60 / 10000 ∧
    (edidBytes 1920 1080)[21]? = some 50 ∧
    (edidBytes 1920 1080)[22]? = some 28 := by decide

/-- C5 counterexample: byte 21 for width 1920 is 50, but rounding
1920 * 254 / 9600 = 50.8 to the nearest integer gives 51; the code
truncates instead of rounding. -/
theorem edid_physical_size_not_rounded :
    (edidBytes 1920 1080)[21]? = some 50 ∧
    specPhysicalSizeCm 1920 = 51 ∧
    (edidBytes 1920 1080)[21]? ≠ some (specPhysicalSizeCm 1920) := by decide

/-- C5 amended: byte 21 equals the truncating integer division
width * 254 / 9600 reduced mod 256 (and byte 22 the same for height),
stated here for widths and heights whose product with 254 does not wrap
32-bit unsigned arithmetic. -/
theorem edid_physical_size_truncated (Width Height : Nat)
    (hw : Width * 254 < 4294967296) (hh : Height * 254 < 4294967296) :
    (edidBytes Width Height)[21]? = some (Width * 254 / 9600 % 256) ∧
    (edidBytes Width Height)[22]? = some (Height * 254 / 9600 % 256) := by
  have h21 : (edidBytes Width Height)[21]? =
      some (Width * 254 % 4294967296 / 960 / 10 % 256) := rfl
  have h22 : (edidBytes Width Height)[22]? =
      some (Height * 254 % 4294967296 / 960 / 10 % 256) := rfl
  rw [h21, h22, Nat.mod_eq_of_lt hw, Nat.mod_eq_of_lt hh,
    Nat.div_div_eq_div_mul, Nat.div_div_eq_div_mul]
  norm_num

/-- Witness for the amended C5 theorem at (1920, 1080). -/
theorem edid_physical_size_truncated_witness :
    (edidBytes 1920 1080)[21]? = some (1920 * 254 / 9600 % 256) ∧
    (edidBytes 1920 1080)[22]? = some (1080 * 254 / 9600 % 256) :=
  edid_physical_size_truncated 1920 1080 (by decide) (by decide)

/-! ## The frame-processing step (SwapChain.cpp, ProcessSwapChainFrame) -/

/-- Outcome of the host's acquire call
(IddCxSwapChainReleaseAndAcquireBuffer): a status plus the dirty-rect count
in the returned metadata. -/
structure AcquireResult where
  status : Int
  dirtyRectCount : Nat
  deriving DecidableEq

/-- ProcessSwapChainFrame (SwapChain.cpp 33-94).  Returns the number of
release calls issued (the second IddCxSwapChainReleaseAndAcquireBuffer
invocation) and the NTSTATUS the function returns.  If the acquire status
fails the NT_SUCCESS test the function returns early without releasing.
Otherwise the DirtyRectCount == 0 test only selects trace output - both
branches fall through to the release call, whose status is the return
value. -/
def ProcessSwapChainFrame (acquire : AcquireResult) (releaseStatus : Int) :
    Nat × Int :=
  if NT_SUCCESS acquire.status = false then
    (0, acquire.status)
  else
    (1, releaseStatus)

/-- C9: evaluation at the failing input.  STATUS_PENDING passes the
NT_SUCCESS test (0x103 is nonnegative), so a pending acquire does not take
the early return: the function issues the release call (release count 1)
even though no buffer was acquired.  On a genuinely failing acquire no
release is issued, and on a successful acquire exactly one release is
issued. -/
theorem ProcessSwapChainFrame_pending_releases :
    NT_SUCCESS STATUS_PENDING = true ∧
    (ProcessSwapChainFrame ⟨STATUS_PENDING, 0⟩ STATUS_SUCCESS).1 = 1 ∧
    (ProcessSwapChainFrame ⟨STATUS_INVALID_PARAMETER, 0⟩ STATUS_SUCCESS).1 = 0 ∧
    (ProcessSwapChainFrame ⟨STATUS_SUCCESS, 0⟩ STATUS_SUCCESS).1 = 1 ∧
    (ProcessSwapChainFrame ⟨STATUS_SUCCESS, 5⟩ STATUS_SUCCESS).1 = 1 := by
  decide

/-! ## Mode catalog (Driver.h 82-99) and the monitor mode callbacks
(Monitor.cpp 154-266) -/

structure DISPLAY_MODE where
  Width : Nat
  Height : Nat
  RefreshRate : Nat
  deriving DecidableEq

def g_SupportedModes : List DISPLAY_MODE :=
  [⟨1920, 1080, 60⟩, ⟨1920, 1080, 120⟩, ⟨2560, 1600, 60⟩,
   ⟨1280, 720, 60⟩, ⟨3840, 2160, 60⟩]

def SUPPORTED_MODE_COUNT : Nat := g_SupportedModes.length

/-- Fields of DISPLAYCONFIG_VIDEO_SIGNAL_INFO that the two mode callbacks
fill (total size, active size, vertical and horizontal sync frequency as
numerator/denominator, pixel rate, scan-line ordering). -/
structure VideoSignalInfo where
  totalCx : Nat
  totalCy : Nat
  activeCx : Nat
  activeCy : Nat
  vSyncNum : Nat
  vSyncDen : Nat
  hSyncNum : Nat
  hSyncDen : Nat
  pixelRate : Nat
  progressive : Bool
  deriving DecidableEq

/-- Loop body of ExpandScreenEvtMonitorGetDefaultModes (Monitor.cpp
170-194) for index i. -/
def defaultModeSignalInfo (i : Nat) : VideoSignalInfo :=
  let m := g_SupportedModes.getD i ⟨0, 0, 0⟩
  ⟨m.Width, m.Height, m.Width, m.Height,
   m.RefreshRate, 1, m.RefreshRate * m.Height, 1,
   m.Width * m.Height * m.RefreshRate, true⟩

/-- Loop body of ExpandScreenEvtMonitorQueryTargetModes (Monitor.cpp
235-258) for index i. -/
def targetModeSignalInfo (i : Nat) : VideoSignalInfo :=
  let m := g_SupportedModes.getD i ⟨0, 0, 0⟩
  ⟨m.Width, m.Height, m.Width, m.Height,
   m.RefreshRate, 1, m.RefreshRate * m.Height, 1,
   m.Width * m.Height * m.RefreshRate, true⟩

structure GetDefaultModesOut where
  modes : List VideoSignalInfo
  outputCount : Nat
  preferredIdx : Nat
  deriving DecidableEq

/-- ExpandScreenEvtMonitorGetDefaultModes (Monitor.cpp 154-203): fills
min(requested, SUPPORTED_MODE_COUNT) entries from the catalog in order,
reports that count and preferred index 0. -/
def ExpandScreenEvtMonitorGetDefaultModes (requestedCount : Nat) : GetDefaultModesOut :=
  let modeCount := min requestedCount SUPPORTED_MODE_COUNT
  ⟨(List.range modeCount).map defaultModeSignalInfo, modeCount, 0⟩

structure QueryTargetModesOut where
  modes : List VideoSignalInfo
  outputCount : Nat
  deriving DecidableEq

/-- ExpandScreenEvtMonitorQueryTargetModes (Monitor.cpp 219-266): same
traversal and field derivation as the default-modes callback. -/
def ExpandScreenEvtMonitorQueryTargetModes (requestedCount : Nat) : QueryTargetModesOut :=
  let modeCount := min requestedCount SUPPORTED_MODE_COUNT
  ⟨(List.range modeCount).map targetModeSignalInfo, modeCount⟩

/-- C3: for every requested count, the two mode callbacks traverse the same
catalog in the same order and produce identical signal-info entries; both
return exactly min(requested, catalog size) entries, never more than the
catalog size, and each entry carries vertical sync = refresh rate,
horizontal sync = refresh rate x height, pixel rate = width x height x
refresh rate, progressive scan. -/
theorem default_and_target_modes_agree (requestedCount : Nat) :
    (ExpandScreenEvtMonitorGetDefaultModes requestedCount).modes =
      (ExpandScreenEvtMonitorQueryTargetModes requestedCount).modes ∧
    (ExpandScreenEvtMonitorGetDefaultModes requestedCount).outputCount =
      min requestedCount SUPPORTED_MODE_COUNT ∧
    (ExpandScreenEvtMonitorQueryTargetModes requestedCount).outputCount =
      min requestedCount SUPPORTED_MODE_COUNT ∧
    (ExpandScreenEvtMonitorGetDefaultModes requestedCount).modes.length =
      min requestedCount SUPPORTED_MODE_COUNT ∧
    min requestedCount SUPPORTED_MODE_COUNT ≤ SUPPORTED_MODE_COUNT ∧
    (ExpandScreenEvtMonitorGetDefaultModes requestedCount).modes.map
        (fun e => e.vSyncNum) =
      (g_SupportedModes.take (min requestedCount SUPPORTED_MODE_COUNT)).map
        (fun m => m.RefreshRate) ∧
    (ExpandScreenEvtMonitorGetDefaultModes requestedCount).modes.map
        (fun e => e.hSyncNum) =
      (g_SupportedModes.take (min requestedCount SUPPORTED_MODE_COUNT)).map
        (fun m => m.RefreshRate * m.Height) ∧
    (ExpandScreenEvtMonitorGetDefaultModes requestedCount).modes.map
        (fun e => e.pixelRate) =
      (g_SupportedModes.take (min requestedCount SUPPORTED_MODE_COUNT)).map
        (fun m => m.Width * m.Height * m.RefreshRate) ∧
    (ExpandScreenEvtMonitorGetDefaultModes requestedCount).modes.all
        (fun e => e.progressive) = true := by
  rcases Nat.lt_or_ge requestedCount SUPPORTED_MODE_COUNT with h | h
  · have h5 : requestedCount < 5 := h
    interval_cases requestedCount <;> decide
  · have hmin : min requestedCount SUPPORTED_MODE_COUNT = SUPPORTED_MODE_COUNT :=
      Nat.min_eq_right h
    simp only [ExpandScreenEvtMonitorGetDefaultModes,
      ExpandScreenEvtMonitorQueryTargetModes, hmin]
    decide

/-! ## Driver state: the monitor-id counter, the monitor count and the set
of created monitors

The shared mutable state is `g_MonitorIdCounter` (Monitor.cpp 26) and
`DEVICE_CONTEXT.MonitorCount` (Driver.h 36), both 32-bit LONGs bumped with
InterlockedIncrement, which wraps at 2^32.  Both are modelled by their
unsigned 32-bit bit patterns, every increment reducing mod 4294967296;
`longSigned` recovers the signed LONG value of a pattern.  Monitor contexts
created by IddCxMonitorCreate are recorded by their ConnectorIndex.  The
WDF queue is sequential (WdfIoQueueDispatchSequential, Ioctl.cpp 48), so
executions are modelled as sequences of events. -/

structure DriverState where
  monitorIdCounter : Nat
  monitorCount : Nat
  monitors : List Nat
  deriving DecidableEq

def initialState : DriverState := ⟨0, 0, []⟩

/-- Signed value of a 32-bit LONG stored as its unsigned bit pattern. -/
def longSigned (v : Nat) : Int :=
  if v < 2147483648 then (v : Int) else (v : Int) - 4294967296

/-- Statuses returned by the three host calls CreateMonitor makes
(IddCxMonitorCreate, IddCxMonitorSetCallbacks, IddCxMonitorArrival). -/
structure CreateMonitorEnv where
  monitorCreateStatus : Int
  setCallbacksStatus : Int
  arrivalStatus : Int
  deriving DecidableEq

structure CreateMonitorResult where
  status : Int
  connectorIndex : Nat
  monitorCreated : Bool
  state : DriverState
  deriving DecidableEq

/-- CreateMonitor (Monitor.cpp 41-138).  The connector index is
InterlockedIncrement(&g_MonitorIdCounter) - a wrapping 32-bit increment -
taken before GenerateEdid runs; the id is therefore consumed even on the
failure paths.  A monitor context is recorded only once IddCxMonitorCreate
succeeds; the later SetCallbacks / Arrival failures return an error but
leave the created context in place. -/
def CreateMonitor (env : CreateMonitorEnv) (s : DriverState) : CreateMonitorResult :=
  let connectorIndex := (s.monitorIdCounter + 1) % 4294967296
  let s1 : DriverState := { s with monitorIdCounter := connectorIndex }
  let edid := GenerateEdid false 1920 1080
  if NT_SUCCESS edid.1 = false then
    ⟨edid.1, connectorIndex, false, s1⟩
  else if NT_SUCCESS env.monitorCreateStatus = false then
    ⟨env.monitorCreateStatus, connectorIndex, false, s1⟩
  else
    let s2 : DriverState := { s1 with monitors := s1.monitors ++ [connectorIndex] }
    if NT_SUCCESS env.setCallbacksStatus = false then
      ⟨env.setCallbacksStatus, connectorIndex, true, s2⟩
    else if NT_SUCCESS env.arrivalStatus = false then
      ⟨env.arrivalStatus, connectorIndex, true, s2⟩
    else
      ⟨STATUS_SUCCESS, connectorIndex, true, s2⟩

/-- ExpandScreenEvtAdapterInitFinished (Adapter.cpp 126-163): on a failed
adapter init the status is propagated unchanged; otherwise the default
monitor is created and, on success, MonitorCount is incremented (a wrapping
32-bit InterlockedIncrement). -/
def ExpandScreenEvtAdapterInitFinished (adapterInitStatus : Int)
    (env : CreateMonitorEnv) (s : DriverState) : Int × DriverState :=
  if NT_SUCCESS adapterInitStatus = false then
    (adapterInitStatus, s)
  else
    let r := CreateMonitor env s
    if NT_SUCCESS r.status = false then
      (r.status, r.state)
    else
      (STATUS_SUCCESS,
        { r.state with monitorCount := (r.state.monitorCount + 1) % 4294967296 })

/-! ## The IOCTL dispatcher (Ioctl.cpp 87-222) -/

def CTL_CODE (DeviceType Function Method Access : Nat) : Nat :=
  DeviceType * 65536 + Access * 16384 + Function * 4 + Method

def FILE_DEVICE_VIDEO : Nat := 0x23

def METHOD_BUFFERED : Nat := 0

def FILE_ANY_ACCESS : Nat := 0

def FILE_READ_ACCESS : Nat := 1

def IOCTL_EXPANDSCREEN_CREATE_MONITOR : Nat :=
  CTL_CODE FILE_DEVICE_VIDEO 0x800 METHOD_BUFFERED FILE_ANY_ACCESS

def IOCTL_EXPANDSCREEN_DESTROY_MONITOR : Nat :=
  CTL_CODE FILE_DEVICE_VIDEO 0x801 METHOD_BUFFERED FILE_ANY_ACCESS

def IOCTL_EXPANDSCREEN_GET_ADAPTER_INFO : Nat :=
  CTL_CODE FILE_DEVICE_VIDEO 0x802 METHOD_BUFFERED FILE_READ_ACCESS

structure EXPANDSCREEN_CREATE_MONITOR_INPUT where
  Width : Nat
  Height : Nat
  RefreshRate : Nat
  deriving DecidableEq

structure EXPANDSCREEN_CREATE_MONITOR_OUTPUT where
  MonitorId : Nat
  Status : Int
  deriving DecidableEq

structure EXPANDSCREEN_ADAPTER_INFO where
  MonitorCount : Nat
  MaxMonitors : Nat
  deriving DecidableEq

/-- Environment of one IOCTL invocation: the request's input payload and
the statuses of the WDF buffer-retrieval calls, plus the statuses of the
host calls a nested CreateMonitor makes. -/
structure IoDeviceControlEnv where
  pInput : EXPANDSCREEN_CREATE_MONITOR_INPUT
  retrieveInputStatus : Int
  retrieveOutputStatus : Int
  createEnv : CreateMonitorEnv
  deriving DecidableEq

structure IoDeviceControlResult where
  createOutput : Option EXPANDSCREEN_CREATE_MONITOR_OUTPUT
  adapterInfoOutput : Option EXPANDSCREEN_ADAPTER_INFO
  completionStatus : Int
  state : DriverState
  deriving DecidableEq

/-- ExpandScreenEvtIoDeviceControl (Ioctl.cpp 87-222).  The create branch
retrieves both buffers, calls CreateMonitor and on success increments
MonitorCount and writes MonitorId = InterlockedIncrement(&g_MonitorIdCounter)
(a second wrapping increment) with Status = STATUS_SUCCESS; on failure it
writes id 0 with the failing status; the request itself then completes with
STATUS_SUCCESS.  The destroy branch is not implemented.  The get-info branch
reports the current count cast to UINT and MaxMonitors = 4.  Unknown codes
are rejected.  The input payload (width, height, refresh rate) is only
logged. -/
def ExpandScreenEvtIoDeviceControl (ioControlCode : Nat)
    (env : IoDeviceControlEnv) (s : DriverState) : IoDeviceControlResult :=
  if ioControlCode = IOCTL_EXPANDSCREEN_CREATE_MONITOR then
    if NT_SUCCESS env.retrieveInputStatus = false then
      ⟨none, none, env.retrieveInputStatus, s⟩
    else if NT_SUCCESS env.retrieveOutputStatus = false then
      ⟨none, none, env.retrieveOutputStatus, s⟩
    else
      let r := CreateMonitor env.createEnv s
      if NT_SUCCESS r.status then
        let s2 : DriverState :=
          { r.state with monitorCount := (r.state.monitorCount + 1) % 4294967296 }
        let monitorId := (s2.monitorIdCounter + 1) % 4294967296
        let s3 : DriverState := { s2 with monitorIdCounter := monitorId }
        ⟨some ⟨monitorId, STATUS_SUCCESS⟩, none, STATUS_SUCCESS, s3⟩
      else
        ⟨some ⟨0, r.status⟩, none, STATUS_SUCCESS, r.state⟩
  else if ioControlCode = IOCTL_EXPANDSCREEN_DESTROY_MONITOR then
    ⟨none, none, STATUS_NOT_IMPLEMENTED, s⟩
  else if ioControlCode = IOCTL_EXPANDSCREEN_GET_ADAPTER_INFO then
    if NT_SUCCESS env.retrieveOutputStatus = false then
      ⟨none, none, env.retrieveOutputStatus, s⟩
    else
      ⟨none, some ⟨s.monitorCount % 4294967296, 4⟩, STATUS_SUCCESS, s⟩
  else
    ⟨none, none, STATUS_INVALID_DEVICE_REQUEST, s⟩

/-! ## Event traces -/

/-- One observable event of the control plane: the host's
adapter-init-finished callback, or one IOCTL request. -/
inductive DriverEvent where
  | adapterInitFinished (adapterInitStatus : Int) (env : CreateMonitorEnv)
  | deviceControl (ioControlCode : Nat) (env : IoDeviceControlEnv)
  deriving DecidableEq

def step : DriverEvent → DriverState → DriverState
  | .adapterInitFinished st env, s => (ExpandScreenEvtAdapterInitFinished st env s).2
  | .deviceControl code env, s => (ExpandScreenEvtIoDeviceControl code env s).state

def run : List DriverEvent → DriverState → DriverState
  | [], s => s
  | e :: es, s => run es (step e s)

/-- Monitor-id allocations an event draws from g_MonitorIdCounter, in
order, tagged `true` when the value becomes a monitor's ConnectorIndex
(the increment inside CreateMonitor) and `false` when it is the extra
increment the IOCTL create branch returns as MonitorId. -/
def eventAllocs : DriverEvent → DriverState → List (Nat × Bool)
  | .adapterInitFinished st env, s =>
    if NT_SUCCESS st = false then []
    else [((CreateMonitor env s).connectorIndex, true)]
  | .deviceControl code env, s =>
    if code = IOCTL_EXPANDSCREEN_CREATE_MONITOR then
      if NT_SUCCESS env.retrieveInputStatus = false then []
      else if NT_SUCCESS env.retrieveOutputStatus = false then []
      else
        let r := CreateMonitor env.createEnv s
        if NT_SUCCESS r.status then
          [(r.connectorIndex, true),
           ((r.state.monitorIdCounter + 1) % 4294967296, false)]
        else
          [(r.connectorIndex, true)]
    else []

def traceAllocs : List DriverEvent → DriverState → List (Nat × Bool)
  | [], _ => []
  | e :: es, s => eventAllocs e s ++ traceAllocs es (step e s)

/-- Whether the event performs a monitor creation that succeeds (the paths
on which the source increments MonitorCount). -/
def eventCreateSuccess (e : DriverEvent) (s : DriverState) : Bool :=
  match e with
  | .adapterInitFinished st env =>
    NT_SUCCESS st && NT_SUCCESS (CreateMonitor env s).status
  | .deviceControl code env =>
    decide (code = IOCTL_EXPANDSCREEN_CREATE_MONITOR) &&
    NT_SUCCESS env.retrieveInputStatus && NT_SUCCESS env.retrieveOutputStatus &&
    NT_SUCCESS (CreateMonitor env.createEnv s).status

/-- Whether the event is a destroy request that reports success.  The
destroy branch always returns STATUS_NOT_IMPLEMENTED, so this is never
true; it is kept as a definition so the k - j accounting can be stated. -/
def eventDestroySuccess (e : DriverEvent) : Bool :=
  match e with
  | .adapterInitFinished _ _ => false
  | .deviceControl code _ =>
    decide (code = IOCTL_EXPANDSCREEN_DESTROY_MONITOR) &&
    NT_SUCCESS STATUS_NOT_IMPLEMENTED

def countCreates : List DriverEvent → DriverState → Nat
  | [], _ => 0
  | e :: es, s => (if eventCreateSuccess e s then 1 else 0) + countCreates es (step e s)

def countDestroys (es : List DriverEvent) : Nat :=
  es.countP eventDestroySuccess

/-- Adapter-init-finished event in which the host reports success and every
host call inside CreateMonitor succeeds: the event that creates the default
monitor. -/
def defaultInitEvent : DriverEvent :=
  DriverEvent.adapterInitFinished STATUS_SUCCESS
    ⟨STATUS_SUCCESS, STATUS_SUCCESS, STATUS_SUCCESS⟩

/-! ## Facts about a single step -/

theorem CreateMonitor_unfold (env : CreateMonitorEnv) (s : DriverState) :
    CreateMonitor env s =
      if NT_SUCCESS env.monitorCreateStatus = false then
        ⟨env.monitorCreateStatus, (s.monitorIdCounter + 1) % 4294967296, false,
          ⟨(s.monitorIdCounter + 1) % 4294967296, s.monitorCount, s.monitors⟩⟩
      else if NT_SUCCESS env.setCallbacksStatus = false then
        ⟨env.setCallbacksStatus, (s.monitorIdCounter + 1) % 4294967296, true,
          ⟨(s.monitorIdCounter + 1) % 4294967296, s.monitorCount,
            s.monitors ++ [(s.monitorIdCounter + 1) % 4294967296]⟩⟩
      else if NT_SUCCESS env.arrivalStatus = false then
        ⟨env.arrivalStatus, (s.monitorIdCounter + 1) % 4294967296, true,
          ⟨(s.monitorIdCounter + 1) % 4294967296, s.monitorCount,
            s.monitors ++ [(s.monitorIdCounter + 1) % 4294967296]⟩⟩
      else
        ⟨STATUS_SUCCESS, (s.monitorIdCounter + 1) % 4294967296, true,
          ⟨(s.monitorIdCounter + 1) % 4294967296, s.monitorCount,
            s.monitors ++ [(s.monitorIdCounter + 1) % 4294967296]⟩⟩ := rfl

theorem CreateMonitor_connectorIndex (env : CreateMonitorEnv) (s : DriverState) :
    (CreateMonitor env s).connectorIndex = (s.monitorIdCounter + 1) % 4294967296 := by
  rw [CreateMonitor_unfold]
  split_ifs <;> rfl

theorem CreateMonitor_state_counter (env : CreateMonitorEnv) (s : DriverState) :
    (CreateMonitor env s).state.monitorIdCounter =
      (s.monitorIdCounter + 1) % 4294967296 := by
  rw [CreateMonitor_unfold]
  split_ifs <;> rfl

theorem CreateMonitor_state_count (env : CreateMonitorEnv) (s : DriverState) :
    (CreateMonitor env s).state.monitorCount = s.monitorCount := by
  rw [CreateMonitor_unfold]
  split_ifs <;> rfl

theorem CreateMonitor_state_monitors (env : CreateMonitorEnv) (s : DriverState) :
    (CreateMonitor env s).state.monitors = s.monitors ∨
    (CreateMonitor env s).state.monitors =
      s.monitors ++ [(s.monitorIdCounter + 1) % 4294967296] := by
  rw [CreateMonitor_unfold]
  split_ifs <;> simp

/-- Shape of the allocations one event draws: none, one connector index, or
a connector index followed by the extra returned MonitorId; in each case
the counter advances by exactly the drawn increments, wrapping mod 2^32. -/
theorem eventAllocs_shape (e : DriverEvent) (s : DriverState) :
    (eventAllocs e s = [] ∧
      (step e s).monitorIdCounter = s.monitorIdCounter) ∨
    (eventAllocs e s = [((s.monitorIdCounter + 1) % 4294967296, true)] ∧
      (step e s).monitorIdCounter = (s.monitorIdCounter + 1) % 4294967296) ∨
    (eventAllocs e s =
        [((s.monitorIdCounter + 1) % 4294967296, true),
         (((s.monitorIdCounter + 1) % 4294967296 + 1) % 4294967296, false)] ∧
      (step e s).monitorIdCounter =
        ((s.monitorIdCounter + 1) % 4294967296 + 1) % 4294967296) := by
  cases e with
  | adapterInitFinished st env =>
    simp only [eventAllocs, step, ExpandScreenEvtAdapterInitFinished]
    by_cases h1 : NT_SUCCESS st = false
    · left
      simp [h1]
    · by_cases h2 : NT_SUCCESS (CreateMonitor env s).status = false
      · right; left
        simp [h1, h2, CreateMonitor_connectorIndex, CreateMonitor_state_counter]
      · right; left
        simp [h1, h2, CreateMonitor_connectorIndex, CreateMonitor_state_counter]
  | deviceControl code env =>
    by_cases hc : code = IOCTL_EXPANDSCREEN_CREATE_MONITOR
    · simp only [eventAllocs, step, ExpandScreenEvtIoDeviceControl, hc, if_pos rfl]
      by_cases h1 : NT_SUCCESS env.retrieveInputStatus = false
      · left
        simp [h1]
      · by_cases h2 : NT_SUCCESS env.retrieveOutputStatus = false
        · left
          simp [h1, h2]
        · by_cases h3 : NT_SUCCESS (CreateMonitor env.createEnv s).status = true
          · right; right
            simp [h1, h2, h3, CreateMonitor_connectorIndex, CreateMonitor_state_counter]
          · right; left
            simp [h1, h2, h3, CreateMonitor_connectorIndex, CreateMonitor_state_counter]
    · left
      constructor
      · simp [eventAllocs, hc]
      · simp only [step, ExpandScreenEvtIoDeviceControl, if_neg hc, if_false]
        split_ifs <;> rfl

theorem defaultInitEvent_step (s : DriverState) :
    step defaultInitEvent s =
      ⟨(s.monitorIdCounter + 1) % 4294967296, (s.monitorCount + 1) % 4294967296,
        s.monitors ++ [(s.monitorIdCounter + 1) % 4294967296]⟩ ∧
    eventAllocs defaultInitEvent s =
      [((s.monitorIdCounter + 1) % 4294967296, true)] ∧
    eventCreateSuccess defaultInitEvent s = true ∧
    eventDestroySuccess defaultInitEvent = false := by
  refine ⟨rfl, ?_, rfl, rfl⟩
  simp [defaultInitEvent, eventAllocs, CreateMonitor_connectorIndex,
    show NT_SUCCESS STATUS_SUCCESS = true from rfl]

theorem step_monitorCount (e : DriverEvent) (s : DriverState) :
    (step e s).monitorCount =
      if eventCreateSuccess e s = true then (s.monitorCount + 1) % 4294967296
      else s.monitorCount := by
  cases e with
  | adapterInitFinished st env =>
    simp only [step, ExpandScreenEvtAdapterInitFinished, eventCreateSuccess]
    by_cases h1 : NT_SUCCESS st = false
    · simp [h1]
    · by_cases h2 : NT_SUCCESS (CreateMonitor env s).status = false
      · simp [h1, h2, CreateMonitor_state_count]
      · simp [h1, h2, CreateMonitor_state_count]
  | deviceControl code env =>
    by_cases hc : code = IOCTL_EXPANDSCREEN_CREATE_MONITOR
    · simp only [step, ExpandScreenEvtIoDeviceControl, eventCreateSuccess, hc, if_pos rfl]
      by_cases h1 : NT_SUCCESS env.retrieveInputStatus = false
      · simp [h1]
      · by_cases h2 : NT_SUCCESS env.retrieveOutputStatus = false
        · simp [h1, h2]
        · by_cases h3 : NT_SUCCESS (CreateMonitor env.createEnv s).status = true
          · simp [h1, h2, h3, CreateMonitor_state_count]
          · simp [h1, h2, h3, CreateMonitor_state_count]
    · have hfalse : eventCreateSuccess (DriverEvent.deviceControl code env) s = false := by
        simp [eventCreateSuccess, hc]
      rw [hfalse]
      simp only [step, ExpandScreenEvtIoDeviceControl, if_neg hc]
      split_ifs <;> simp_all

theorem step_monitors (e : DriverEvent) (s : DriverState) (x : Nat)
    (hx : x ∈ (step e s).monitors) :
    x ∈ s.monitors ∨ (x, true) ∈ eventAllocs e s := by
  cases e with
  | adapterInitFinished st env =>
    simp only [step, ExpandScreenEvtAdapterInitFinished] at hx
    by_cases h1 : NT_SUCCESS st = false
    · rw [if_pos h1] at hx
      exact Or.inl hx
    · rw [if_neg h1] at hx
      have hmem : x ∈ (CreateMonitor env s).state.monitors := by
        split_ifs at hx <;> exact hx
      rcases CreateMonitor_state_monitors env s with hm | hm
      · rw [hm] at hmem
        exact Or.inl hmem
      · rw [hm] at hmem
        rcases List.mem_append.mp hmem with h | h
        · exact Or.inl h
        · right
          have hx1 : x = (s.monitorIdCounter + 1) % 4294967296 := by simpa using h
          subst hx1
          simp [eventAllocs, h1, CreateMonitor_connectorIndex]
  | deviceControl code env =>
    by_cases hc : code = IOCTL_EXPANDSCREEN_CREATE_MONITOR
    · simp only [step, ExpandScreenEvtIoDeviceControl, hc, if_pos rfl] at hx
      by_cases h1 : NT_SUCCESS env.retrieveInputStatus = false
      · rw [if_pos h1] at hx
        exact Or.inl hx
      · rw [if_neg h1] at hx
        by_cases h2 : NT_SUCCESS env.retrieveOutputStatus = false
        · rw [if_pos h2] at hx
          exact Or.inl hx
        · rw [if_neg h2] at hx
          have hmem : x ∈ (CreateMonitor env.createEnv s).state.monitors := by
            split_ifs at hx <;> exact hx
          rcases CreateMonitor_state_monitors env.createEnv s with hm | hm
          · rw [hm] at hmem
            exact Or.inl hmem
          · rw [hm] at hmem
            rcases List.mem_append.mp hmem with h | h
            · exact Or.inl h
            · right
              have hx1 : x = (s.monitorIdCounter + 1) % 4294967296 := by simpa using h
              subst hx1
              by_cases h3 : NT_SUCCESS (CreateMonitor env.createEnv s).status = true
              · simp [eventAllocs, hc, h1, h2, h3, CreateMonitor_connectorIndex]
              · simp [eventAllocs, hc, h1, h2, h3, CreateMonitor_connectorIndex]
    · simp only [step, ExpandScreenEvtIoDeviceControl, if_neg hc] at hx
      left
      split_ifs at hx <;> exact hx

theorem run_monitors_sub (es : List DriverEvent) (s : DriverState) (x : Nat)
    (hx : x ∈ (run es s).monitors) :
    x ∈ s.monitors ∨ (x, true) ∈ traceAllocs es s := by
  induction es generalizing s with
  | nil => exact Or.inl hx
  | cons e es ih =>
    have hx2 : x ∈ (run es (step e s)).monitors := hx
    rcases ih (step e s) hx2 with h | h
    · rcases step_monitors e s x h with h2 | h2
      · exact Or.inl h2
      · right
        exact List.mem_append.mpr (Or.inl h2)
    · right
      exact List.mem_append.mpr (Or.inr h)

theorem pairwise_mem_rel {α : Type} {R : α → α → Prop} {l : List α}
    (h : l.Pairwise R) {a b : α} (ha : a ∈ l) (hb : b ∈ l) (hne : a ≠ b) :
    R a b ∨ R b a := by
  induction h with
  | nil => cases ha
  | cons hx hxs ih =>
    rcases List.mem_cons.mp ha with rfl | ha2
    · rcases List.mem_cons.mp hb with rfl | hb2
      · exact absurd rfl hne
      · exact Or.inl (hx b hb2)
    · rcases List.mem_cons.mp hb with rfl | hb2
      · exact Or.inr (hx a ha2)
      · exact ih ha2 hb2

/-! ## Trace-level lemmas -/

/-- While the total number of allocations fits the 32-bit counter (no
wrap), allocated values are exactly the successive counter values: bounded,
strictly increasing in allocation order, and the final counter is the
initial counter plus the allocation count. -/
theorem traceAllocs_nowrap (es : List DriverEvent) (s : DriverState)
    (hs : s.monitorIdCounter + (traceAllocs es s).length < 4294967296) :
    (∀ p ∈ traceAllocs es s,
      s.monitorIdCounter < p.1 ∧
        p.1 ≤ s.monitorIdCounter + (traceAllocs es s).length) ∧
    (traceAllocs es s).Pairwise (fun p q => p.1 < q.1) ∧
    (run es s).monitorIdCounter =
      s.monitorIdCounter + (traceAllocs es s).length := by
  induction es generalizing s with
  | nil => simp [traceAllocs, run]
  | cons e es ih =>
    have hsplit : traceAllocs (e :: es) s =
        eventAllocs e s ++ traceAllocs es (step e s) := rfl
    have hrun : run (e :: es) s = run es (step e s) := rfl
    rcases eventAllocs_shape e s with ⟨ha, hcnt⟩ | ⟨ha, hcnt⟩ | ⟨ha, hcnt⟩
    · have hlen : (traceAllocs (e :: es) s).length =
          (traceAllocs es (step e s)).length := by
        rw [hsplit, ha]
        simp
      obtain ⟨ih1, ih2, ih3⟩ := ih (step e s) (by rw [hcnt]; omega)
      refine ⟨?_, ?_, ?_⟩
      · intro p hp
        have hp2 : p ∈ traceAllocs es (step e s) := by
          rw [hsplit, ha] at hp
          simpa using hp
        have hb := ih1 p hp2
        rw [hcnt] at hb
        exact ⟨hb.1, by omega⟩
      · rw [hsplit, ha]
        simpa using ih2
      · rw [hrun, ih3, hcnt]
        omega
    · have hlen : (traceAllocs (e :: es) s).length =
          1 + (traceAllocs es (step e s)).length := by
        rw [hsplit, ha]
        simp only [List.length_append, List.length_cons, List.length_nil]
      have hc1 : (s.monitorIdCounter + 1) % 4294967296 = s.monitorIdCounter + 1 := by
        omega
      rw [hc1] at ha hcnt
      obtain ⟨ih1, ih2, ih3⟩ := ih (step e s) (by rw [hcnt]; omega)
      refine ⟨?_, ?_, ?_⟩
      · intro p hp
        rw [hsplit, ha, List.singleton_append] at hp
        rcases List.mem_cons.mp hp with rfl | hp2
        · exact ⟨by omega, by omega⟩
        · have hb := ih1 p hp2
          rw [hcnt] at hb
          exact ⟨by omega, by omega⟩
      · rw [hsplit, ha, List.singleton_append, List.pairwise_cons]
        refine ⟨?_, ih2⟩
        intro q hq
        have hb := ih1 q hq
        rw [hcnt] at hb
        omega
      · rw [hrun, ih3, hcnt]
        omega
    · have hlen : (traceAllocs (e :: es) s).length =
          2 + (traceAllocs es (step e s)).length := by
        rw [hsplit, ha]
        simp only [List.length_append, List.length_cons, List.length_nil]
      have hc1 : (s.monitorIdCounter + 1) % 4294967296 = s.monitorIdCounter + 1 := by
        omega
      rw [hc1] at ha hcnt
      have hc2 : (s.monitorIdCounter + 1 + 1) % 4294967296 = s.monitorIdCounter + 2 := by
        omega
      rw [hc2] at ha hcnt
      obtain ⟨ih1, ih2, ih3⟩ := ih (step e s) (by rw [hcnt]; omega)
      refine ⟨?_, ?_, ?_⟩
      · intro p hp
        rw [hsplit, ha] at hp
        rcases List.mem_cons.mp hp with rfl | hp2
        · exact ⟨by omega, by omega⟩
        · rcases List.mem_cons.mp hp2 with rfl | hp3
          · exact ⟨by omega, by omega⟩
          · have hb := ih1 p hp3
            rw [hcnt] at hb
            exact ⟨by omega, by omega⟩
      · rw [hsplit, ha]
        rw [show ((s.monitorIdCounter + 1, true) ::
            (s.monitorIdCounter + 2, false) :: []) ++ traceAllocs es (step e s) =
          (s.monitorIdCounter + 1, true) :: (s.monitorIdCounter + 2, false) ::
            traceAllocs es (step e s) from rfl]
        rw [List.pairwise_cons]
        constructor
        · intro q hq
          rcases List.mem_cons.mp hq with rfl | hq2
          · simp
          · have hb := ih1 q hq2
            rw [hcnt] at hb
            omega
        · rw [List.pairwise_cons]
          refine ⟨?_, ih2⟩
          intro q hq
          have hb := ih1 q hq
          rw [hcnt] at hb
          omega
      · rw [hrun, ih3, hcnt]
        omega

/-- MonitorCount pattern after a run: the initial pattern plus the number
of successful creations, reduced mod 2^32. -/
theorem run_monitorCount (es : List DriverEvent) (s : DriverState)
    (hc : s.monitorCount < 4294967296) :
    (run es s).monitorCount =
      (s.monitorCount + countCreates es s) % 4294967296 := by
  induction es generalizing s with
  | nil =>
    simp [run, countCreates, Nat.mod_eq_of_lt hc]
  | cons e es ih =>
    have hstep : (step e s).monitorCount < 4294967296 := by
      rw [step_monitorCount]
      split_ifs
      · exact Nat.mod_lt _ (by norm_num)
      · exact hc
    have hrun : run (e :: es) s = run es (step e s) := rfl
    rw [hrun, ih (step e s) hstep, step_monitorCount, countCreates]
    split_ifs <;> omega

/-- Closed form of a run of successful default-monitor creations: each
event draws one id, the counter and the count advance by one per event with
32-bit wrap, every creation succeeds and no destruction ever does. -/
theorem replicate_defaultInit (n : Nat) (s : DriverState)
    (hs : s.monitorIdCounter < 4294967296) (hc : s.monitorCount < 4294967296) :
    traceAllocs (List.replicate n defaultInitEvent) s =
      (List.range n).map
        (fun j => ((s.monitorIdCounter + j + 1) % 4294967296, true)) ∧
    (run (List.replicate n defaultInitEvent) s).monitorIdCounter =
      (s.monitorIdCounter + n) % 4294967296 ∧
    (run (List.replicate n defaultInitEvent) s).monitorCount =
      (s.monitorCount + n) % 4294967296 ∧
    countCreates (List.replicate n defaultInitEvent) s = n ∧
    countDestroys (List.replicate n defaultInitEvent) = 0 := by
  induction n generalizing s with
  | zero =>
    refine ⟨rfl, ?_, ?_, rfl, rfl⟩
    · show s.monitorIdCounter = (s.monitorIdCounter + 0) % 4294967296
      omega
    · show s.monitorCount = (s.monitorCount + 0) % 4294967296
      omega
  | succ n ih =>
    obtain ⟨hstep, halloc, hcs, hds⟩ := defaultInitEvent_step s
    have hrepl : List.replicate (n + 1) defaultInitEvent =
        defaultInitEvent :: List.replicate n defaultInitEvent := rfl
    have hA : (step defaultInitEvent s).monitorIdCounter =
        (s.monitorIdCounter + 1) % 4294967296 := by rw [hstep]
    have hB : (step defaultInitEvent s).monitorCount =
        (s.monitorCount + 1) % 4294967296 := by rw [hstep]
    have hs2 : (step defaultInitEvent s).monitorIdCounter < 4294967296 := by
      rw [hA]
      exact Nat.mod_lt _ (by norm_num)
    have hc2 : (step defaultInitEvent s).monitorCount < 4294967296 := by
      rw [hB]
      exact Nat.mod_lt _ (by norm_num)
    obtain ⟨ih1, ih2, ih3, ih4, ih5⟩ := ih (step defaultInitEvent s) hs2 hc2
    rw [hA] at ih1 ih2
    rw [hB] at ih3
    refine ⟨?_, ?_, ?_, ?_, ?_⟩
    · rw [hrepl]
      show eventAllocs defaultInitEvent s ++
          traceAllocs (List.replicate n defaultInitEvent) (step defaultInitEvent s) = _
      rw [halloc, ih1, List.singleton_append]
      simp only [List.range_succ_eq_map, List.map_cons, List.map_map, List.cons.injEq]
      refine ⟨by simp, ?_⟩
      apply List.map_congr_left
      intro j hj
      simp only [Function.comp_apply, Prod.mk.injEq]
      refine ⟨by omega, by simp⟩
    · rw [hrepl]
      show (run (List.replicate n defaultInitEvent) (step defaultInitEvent s)).monitorIdCounter = _
      rw [ih2]
      omega
    · rw [hrepl]
      show (run (List.replicate n defaultInitEvent) (step defaultInitEvent s)).monitorCount = _
      rw [ih3]
      omega
    · rw [hrepl]
      show (if eventCreateSuccess defaultInitEvent s = true then 1 else 0) +
          countCreates (List.replicate n defaultInitEvent) (step defaultInitEvent s) = n + 1
      rw [hcs, ih4]
      simp only [eq_self_iff_true, if_true]
      omega
    · rw [hrepl]
      show List.countP eventDestroySuccess
          (defaultInitEvent :: List.replicate n defaultInitEvent) = 0
      rw [List.countP_cons, hds]
      simpa [countDestroys] using ih5

/-- Branch-normal form of the IOCTL create branch. -/
theorem IoDeviceControl_create_unfold (env : IoDeviceControlEnv) (s : DriverState) :
    ExpandScreenEvtIoDeviceControl IOCTL_EXPANDSCREEN_CREATE_MONITOR env s =
      if NT_SUCCESS env.retrieveInputStatus = false then
        ⟨none, none, env.retrieveInputStatus, s⟩
      else if NT_SUCCESS env.retrieveOutputStatus = false then
        ⟨none, none, env.retrieveOutputStatus, s⟩
      else if NT_SUCCESS (CreateMonitor env.createEnv s).status then
        ⟨some ⟨((CreateMonitor env.createEnv s).state.monitorIdCounter + 1) % 4294967296,
            STATUS_SUCCESS⟩,
          none, STATUS_SUCCESS,
          ⟨((CreateMonitor env.createEnv s).state.monitorIdCounter + 1) % 4294967296,
            ((CreateMonitor env.createEnv s).state.monitorCount + 1) % 4294967296,
            (CreateMonitor env.createEnv s).state.monitors⟩⟩
      else
        ⟨some ⟨0, (CreateMonitor env.createEnv s).status⟩, none, STATUS_SUCCESS,
          (CreateMonitor env.createEnv s).state⟩ := rfl

/-- Execution that drives the id counter to 4294967294 = 2^32 - 2: that
many successful default creations from the initial state. -/
def wrapStateTrace : List DriverEvent := List.replicate 4294967294 defaultInitEvent

theorem wrapState_counter :
    (run wrapStateTrace initialState).monitorIdCounter = 4294967294 := by
  obtain ⟨_, h2, _, _, _⟩ :=
    replicate_defaultInit 4294967294 initialState (by decide) (by decide)
  unfold wrapStateTrace
  rw [h2]
  decide

/-- At the wrap state, a fully successful create IOCTL writes monitor id 0
with STATUS_SUCCESS: the second InterlockedIncrement rolls the 32-bit
counter over to zero. -/
theorem wrapState_create_output :
    (ExpandScreenEvtIoDeviceControl IOCTL_EXPANDSCREEN_CREATE_MONITOR
        ⟨⟨1920, 1080, 60⟩, STATUS_SUCCESS, STATUS_SUCCESS,
          ⟨STATUS_SUCCESS, STATUS_SUCCESS, STATUS_SUCCESS⟩⟩
        (run wrapStateTrace initialState)).createOutput =
      some ⟨0, STATUS_SUCCESS⟩ := by
  have hgen : ∀ t : DriverState, t.monitorIdCounter = 4294967294 →
      (ExpandScreenEvtIoDeviceControl IOCTL_EXPANDSCREEN_CREATE_MONITOR
          ⟨⟨1920, 1080, 60⟩, STATUS_SUCCESS, STATUS_SUCCESS,
            ⟨STATUS_SUCCESS, STATUS_SUCCESS, STATUS_SUCCESS⟩⟩ t).createOutput =
        some ⟨0, STATUS_SUCCESS⟩ := by
    intro t ht
    have hstat : (CreateMonitor ⟨STATUS_SUCCESS, STATUS_SUCCESS, STATUS_SUCCESS⟩ t).status =
        STATUS_SUCCESS := rfl
    rw [IoDeviceControl_create_unfold, if_neg (by decide), if_neg (by decide),
      if_pos (by rw [hstat]; decide)]
    show some (⟨((CreateMonitor ⟨STATUS_SUCCESS, STATUS_SUCCESS, STATUS_SUCCESS⟩
          t).state.monitorIdCounter + 1) % 4294967296,
        STATUS_SUCCESS⟩ : EXPANDSCREEN_CREATE_MONITOR_OUTPUT) =
      some (⟨0, STATUS_SUCCESS⟩ : EXPANDSCREEN_CREATE_MONITOR_OUTPUT)
    rw [CreateMonitor_state_counter, ht]
  exact hgen (run wrapStateTrace initialState) wrapState_counter

/-! ## Claims about ids and counts -/

/-- Execution long enough to wrap the 32-bit id counter: 2^32 + 1
successful default creations. -/
def wrapTrace : List DriverEvent := List.replicate 4294967297 defaultInitEvent

/-- Ids drawn from the counter along wrapTrace, in allocation order. -/
def wrapTraceIds : List Nat := (traceAllocs wrapTrace initialState).map Prod.fst

theorem wrapTraceIds_closed :
    wrapTraceIds = (List.range 4294967297).map (fun j => (j + 1) % 4294967296) := by
  obtain ⟨h1, _, _, _, _⟩ :=
    replicate_defaultInit 4294967297 initialState (by decide) (by decide)
  unfold wrapTraceIds wrapTrace
  rw [h1, List.map_map]
  apply List.map_congr_left
  intro j hj
  simp [initialState]

/-- C6 counterexample: over a long enough execution the wrapping 32-bit
counter reuses ids - the id drawn by the first creation (1) is drawn again
by creation number 2^32 + 1 - so the allocated ids are neither strictly
increasing nor free of repeats. -/
theorem monitor_ids_repeat_after_wrap :
    wrapTraceIds[0]? = some 1 ∧
    wrapTraceIds[4294967296]? = some 1 ∧
    ¬ wrapTraceIds.Nodup ∧
    ¬ wrapTraceIds.Pairwise (· < ·) := by
  have h0 : (0 : Nat) ∈ List.range 4294967297 := List.mem_range.mpr (by norm_num)
  have hm : (4294967296 : Nat) ∈ List.range 4294967297 := List.mem_range.mpr (by norm_num)
  refine ⟨?_, ?_, ?_, ?_⟩
  · rw [wrapTraceIds_closed, List.getElem?_map, List.getElem?_range (by norm_num)]
    rfl
  · rw [wrapTraceIds_closed, List.getElem?_map, List.getElem?_range (by norm_num)]
    rfl
  · intro hnd
    rw [wrapTraceIds_closed] at hnd
    have hpw : (List.range 4294967297).Pairwise
        (fun a b => (a + 1) % 4294967296 ≠ (b + 1) % 4294967296) :=
      List.pairwise_map.mp hnd
    rcases pairwise_mem_rel hpw h0 hm (by norm_num) with hne | hne <;>
      exact hne (by norm_num)
  · intro hpl
    rw [wrapTraceIds_closed] at hpl
    have hpw : (List.range 4294967297).Pairwise
        (fun a b => (a + 1) % 4294967296 < (b + 1) % 4294967296) :=
      List.pairwise_map.mp hpl
    rcases pairwise_mem_rel hpw h0 hm (by norm_num) with hlt | hlt <;> omega

/-- C6 amended: as long as the total number of ids drawn stays below 2^32
(the counter does not wrap), the ids allocated by successive creations are
strictly increasing in allocation order, never reused - including across
destroy requests, which never free an id - and every allocation is a fresh
positive counter value bounded by the final counter. -/
theorem monitor_ids_strictly_increasing_nowrap (es : List DriverEvent)
    (hlen : (traceAllocs es initialState).length < 4294967296) :
    ((traceAllocs es initialState).map Prod.fst).Pairwise (· < ·) ∧
    ((traceAllocs es initialState).map Prod.fst).Nodup ∧
    ∀ x ∈ (traceAllocs es initialState).map Prod.fst,
      0 < x ∧ x ≤ (run es initialState).monitorIdCounter := by
  have hA : initialState.monitorIdCounter = 0 := rfl
  obtain ⟨h1, h2, h3⟩ := traceAllocs_nowrap es initialState (by omega)
  have hp : ((traceAllocs es initialState).map Prod.fst).Pairwise (· < ·) :=
    List.pairwise_map.mpr h2
  refine ⟨hp, hp.imp (fun h => Nat.ne_of_lt h), ?_⟩
  intro x hx
  rcases List.mem_map.mp hx with ⟨p, hp2, rfl⟩
  have hb := h1 p hp2
  exact ⟨by omega, by omega⟩

/-- Witness for the amended C6 theorem: one successful creation. -/
theorem monitor_ids_strictly_increasing_nowrap_witness :
    ((traceAllocs [defaultInitEvent] initialState).map Prod.fst).Pairwise (· < ·) ∧
    ((traceAllocs [defaultInitEvent] initialState).map Prod.fst).Nodup ∧
    ∀ x ∈ (traceAllocs [defaultInitEvent] initialState).map Prod.fst,
      0 < x ∧ x ≤ (run [defaultInitEvent] initialState).monitorIdCounter :=
  monitor_ids_strictly_increasing_nowrap [defaultInitEvent] (by decide)

/-- C7 counterexample: after 2^31 successful creations and no destructions
the 32-bit LONG MonitorCount wraps negative: its signed value is
-2^31, which is negative and differs from k - j = 2^31. -/
theorem monitorCount_wraps_negative :
    countCreates (List.replicate 2147483648 defaultInitEvent) initialState = 2147483648 ∧
    countDestroys (List.replicate 2147483648 defaultInitEvent) = 0 ∧
    longSigned ((run (List.replicate 2147483648 defaultInitEvent)
        initialState).monitorCount) = -2147483648 ∧
    longSigned ((run (List.replicate 2147483648 defaultInitEvent)
        initialState).monitorCount) < 0 ∧
    longSigned ((run (List.replicate 2147483648 defaultInitEvent)
        initialState).monitorCount) ≠
      (countCreates (List.replicate 2147483648 defaultInitEvent) initialState : Int) -
        (countDestroys (List.replicate 2147483648 defaultInitEvent) : Int) := by
  obtain ⟨_, _, h3, h4, h5⟩ :=
    replicate_defaultInit 2147483648 initialState (by decide) (by decide)
  have hcnt : (run (List.replicate 2147483648 defaultInitEvent)
      initialState).monitorCount = 2147483648 := by
    rw [h3]
    decide
  have hlv : longSigned 2147483648 = -2147483648 := by decide
  refine ⟨h4, h5, ?_, ?_, ?_⟩
  · rw [hcnt, hlv]
  · rw [hcnt, hlv]
    norm_num
  · rw [hcnt, hlv, h4, h5]
    norm_num

/-- C7 amended: as long as the number of successful creations stays below
2^31 (the LONG does not overflow), the signed MonitorCount equals k - j,
where j (successful destructions) is provably zero since destroy is not
implemented, and it is never negative; each step changes the count exactly
by one wrapping increment per successful creation and nothing else. -/
theorem monitorCount_accounting_nowrap (es : List DriverEvent)
    (hk : countCreates es initialState < 2147483648) :
    longSigned (run es initialState).monitorCount =
      (countCreates es initialState : Int) - (countDestroys es : Int) ∧
    0 ≤ longSigned (run es initialState).monitorCount ∧
    countDestroys es = 0 ∧
    ∀ (e : DriverEvent) (s : DriverState),
      (step e s).monitorCount =
        if eventCreateSuccess e s = true then (s.monitorCount + 1) % 4294967296
        else s.monitorCount := by
  have hz : countDestroys es = 0 := by
    unfold countDestroys
    rw [List.countP_eq_zero]
    intro e he
    cases e with
    | adapterInitFinished st env => simp [eventDestroySuccess]
    | deviceControl code env =>
      simp [eventDestroySuccess,
        show NT_SUCCESS STATUS_NOT_IMPLEMENTED = false from rfl]
  have hrc := run_monitorCount es initialState (by decide)
  have hcount : (run es initialState).monitorCount = countCreates es initialState := by
    rw [hrc]
    have hA : initialState.monitorCount = 0 := rfl
    omega
  refine ⟨?_, ?_, hz, step_monitorCount⟩
  · rw [hcount, hz]
    unfold longSigned
    rw [if_pos hk]
    simp
  · rw [hcount]
    unfold longSigned
    rw [if_pos hk]
    omega

/-- Witness for the amended C7 theorem: one successful creation. -/
theorem monitorCount_accounting_nowrap_witness :
    longSigned (run [defaultInitEvent] initialState).monitorCount =
      (countCreates [defaultInitEvent] initialState : Int) -
        (countDestroys [defaultInitEvent] : Int) ∧
    0 ≤ longSigned (run [defaultInitEvent] initialState).monitorCount ∧
    countDestroys [defaultInitEvent] = 0 ∧
    ∀ (e : DriverEvent) (s : DriverState),
      (step e s).monitorCount =
        if eventCreateSuccess e s = true then (s.monitorCount + 1) % 4294967296
        else s.monitorCount :=
  monitorCount_accounting_nowrap [defaultInitEvent] (by decide)

/-- C8 counterexample: at the reachable state (after 2^32 - 2 successful
creations) where the wrapped id counter holds 2^32 - 2, a fully successful
create request writes MonitorId 0 paired with STATUS_SUCCESS to the output
buffer: a zero id together with a success status. -/
theorem zero_id_with_success_at_wrap :
    (run wrapStateTrace initialState).monitorIdCounter = 4294967294 ∧
    (ExpandScreenEvtIoDeviceControl IOCTL_EXPANDSCREEN_CREATE_MONITOR
        ⟨⟨1920, 1080, 60⟩, STATUS_SUCCESS, STATUS_SUCCESS,
          ⟨STATUS_SUCCESS, STATUS_SUCCESS, STATUS_SUCCESS⟩⟩
        (run wrapStateTrace initialState)).createOutput =
      some ⟨0, STATUS_SUCCESS⟩ ∧
    NT_SUCCESS STATUS_SUCCESS = true :=
  ⟨wrapState_counter, wrapState_create_output, rfl⟩

/-- C8 amended: whenever the create-monitor handler fills the output
buffer from a state with a 32-bit counter value, either the creation
succeeded - Status is STATUS_SUCCESS, a success code, and MonitorId is the
doubly incremented counter (counter + 2 mod 2^32), which is nonzero except
at the single wrap state counter = 2^32 - 2 - or the written MonitorId is 0
alongside a failing Status. -/
theorem create_monitor_output_consistent_nowrap (code : Nat)
    (env : IoDeviceControlEnv) (s : DriverState)
    (o : EXPANDSCREEN_CREATE_MONITOR_OUTPUT)
    (hs : s.monitorIdCounter < 4294967296)
    (h : (ExpandScreenEvtIoDeviceControl code env s).createOutput = some o) :
    (o.Status = STATUS_SUCCESS ∧ NT_SUCCESS o.Status = true ∧
      o.MonitorId = (s.monitorIdCounter + 2) % 4294967296 ∧
      (s.monitorIdCounter ≠ 4294967294 → o.MonitorId ≠ 0)) ∨
    (o.MonitorId = 0 ∧ NT_SUCCESS o.Status = false) := by
  by_cases hc : code = IOCTL_EXPANDSCREEN_CREATE_MONITOR
  · subst hc
    rw [IoDeviceControl_create_unfold] at h
    by_cases h1 : NT_SUCCESS env.retrieveInputStatus = false
    · rw [if_pos h1] at h
      simp at h
    · rw [if_neg h1] at h
      by_cases h2 : NT_SUCCESS env.retrieveOutputStatus = false
      · rw [if_pos h2] at h
        simp at h
      · rw [if_neg h2] at h
        by_cases h3 : NT_SUCCESS (CreateMonitor env.createEnv s).status = true
        · rw [if_pos h3] at h
          left
          simp only [Option.some.injEq] at h
          subst h
          refine ⟨rfl, rfl, ?_, ?_⟩
          · show ((CreateMonitor env.createEnv s).state.monitorIdCounter + 1) %
                4294967296 = _
            rw [CreateMonitor_state_counter]
            omega
          · intro hne
            show ((CreateMonitor env.createEnv s).state.monitorIdCounter + 1) %
                4294967296 ≠ 0
            rw [CreateMonitor_state_counter]
            omega
        · rw [if_neg h3] at h
          right
          simp only [Option.some.injEq] at h
          subst h
          refine ⟨rfl, ?_⟩
          simpa using h3
  · exfalso
    simp only [ExpandScreenEvtIoDeviceControl, if_neg hc] at h
    split_ifs at h

/-- Witness for the amended C8 theorem: a successful creation from the
initial state writes id 2 with STATUS_SUCCESS. -/
theorem create_monitor_output_consistent_nowrap_witness :
    ((⟨2, 0⟩ : EXPANDSCREEN_CREATE_MONITOR_OUTPUT).Status = STATUS_SUCCESS ∧
      NT_SUCCESS (⟨2, 0⟩ : EXPANDSCREEN_CREATE_MONITOR_OUTPUT).Status = true ∧
      (⟨2, 0⟩ : EXPANDSCREEN_CREATE_MONITOR_OUTPUT).MonitorId =
        (initialState.monitorIdCounter + 2) % 4294967296 ∧
      (initialState.monitorIdCounter ≠ 4294967294 →
        (⟨2, 0⟩ : EXPANDSCREEN_CREATE_MONITOR_OUTPUT).MonitorId ≠ 0)) ∨
    ((⟨2, 0⟩ : EXPANDSCREEN_CREATE_MONITOR_OUTPUT).MonitorId = 0 ∧
      NT_SUCCESS (⟨2, 0⟩ : EXPANDSCREEN_CREATE_MONITOR_OUTPUT).Status = false) :=
  create_monitor_output_consistent_nowrap IOCTL_EXPANDSCREEN_CREATE_MONITOR
    ⟨⟨1920, 1080, 60⟩, STATUS_SUCCESS, STATUS_SUCCESS,
      ⟨STATUS_SUCCESS, STATUS_SUCCESS, STATUS_SUCCESS⟩⟩ initialState ⟨2, 0⟩
    (by decide) (by decide)

/-- C10 counterexample: at the reachable state where the wrapped id counter
holds 2^32 - 2, the created monitor's ConnectorIndex is 2^32 - 1 but the id
returned to the caller is 0, which is not ConnectorIndex + 1. -/
theorem returned_id_not_connector_succ_at_wrap :
    (CreateMonitor ⟨STATUS_SUCCESS, STATUS_SUCCESS, STATUS_SUCCESS⟩
        (run wrapStateTrace initialState)).connectorIndex = 4294967295 ∧
    (ExpandScreenEvtIoDeviceControl IOCTL_EXPANDSCREEN_CREATE_MONITOR
        ⟨⟨1920, 1080, 60⟩, STATUS_SUCCESS, STATUS_SUCCESS,
          ⟨STATUS_SUCCESS, STATUS_SUCCESS, STATUS_SUCCESS⟩⟩
        (run wrapStateTrace initialState)).createOutput =
      some ⟨0, STATUS_SUCCESS⟩ ∧
    (0 : Nat) ≠ 4294967295 + 1 := by
  refine ⟨?_, wrapState_create_output, by norm_num⟩
  rw [CreateMonitor_connectorIndex, wrapState_counter]

/-- C10 amended: a successful IOCTL creation increments the 32-bit counter
twice - once inside CreateMonitor for the ConnectorIndex and once for the
returned MonitorId, so the returned id is ConnectorIndex + 1 mod 2^32 and
never equals the id of any monitor created in the handler (the per-request
waste); and over any wrap-free execution from the initial state, an id
drawn by the second increment is never the id of any existing monitor. -/
theorem returned_id_double_increment_nowrap (es : List DriverEvent)
    (env : IoDeviceControlEnv) (s : DriverState)
    (o : EXPANDSCREEN_CREATE_MONITOR_OUTPUT)
    (hlen : (traceAllocs es initialState).length < 4294967296) :
    ((ExpandScreenEvtIoDeviceControl IOCTL_EXPANDSCREEN_CREATE_MONITOR
          env s).createOutput = some o →
      NT_SUCCESS o.Status = true →
      (ExpandScreenEvtIoDeviceControl IOCTL_EXPANDSCREEN_CREATE_MONITOR
          env s).state.monitorIdCounter = (s.monitorIdCounter + 2) % 4294967296 ∧
      o.MonitorId = ((CreateMonitor env.createEnv s).connectorIndex + 1) %
        4294967296) ∧
    ∀ monitorId, (monitorId, false) ∈ traceAllocs es initialState →
      monitorId ∉ (run es initialState).monitors := by
  constructor
  · intro h hsucc
    rw [IoDeviceControl_create_unfold] at h
    by_cases h1 : NT_SUCCESS env.retrieveInputStatus = false
    · rw [if_pos h1] at h
      simp at h
    · rw [if_neg h1] at h
      by_cases h2 : NT_SUCCESS env.retrieveOutputStatus = false
      · rw [if_pos h2] at h
        simp at h
      · rw [if_neg h2] at h
        by_cases h3 : NT_SUCCESS (CreateMonitor env.createEnv s).status = true
        · rw [if_pos h3] at h
          simp only [Option.some.injEq] at h
          subst h
          constructor
          · rw [IoDeviceControl_create_unfold, if_neg h1, if_neg h2, if_pos h3]
            show ((CreateMonitor env.createEnv s).state.monitorIdCounter + 1) %
                4294967296 = _
            rw [CreateMonitor_state_counter]
            omega
          · show ((CreateMonitor env.createEnv s).state.monitorIdCounter + 1) %
                4294967296 = _
            rw [CreateMonitor_state_counter, CreateMonitor_connectorIndex]
        · rw [if_neg h3] at h
          simp only [Option.some.injEq] at h
          subst h
          exact absurd hsucc h3
  · intro monitorId hmem hmon
    rcases run_monitors_sub es initialState monitorId hmon with h | h
    · have hempty : monitorId ∈ ([] : List Nat) := h
      cases hempty
    · have hA : initialState.monitorIdCounter = 0 := rfl
      obtain ⟨_, hP, _⟩ := traceAllocs_nowrap es initialState (by omega)
      have hne : ((monitorId, false) : Nat × Bool) ≠ (monitorId, true) := by simp
      rcases pairwise_mem_rel hP hmem h hne with hlt | hlt <;>
        exact absurd hlt (lt_irrefl monitorId)

/-- Witness for the amended C10 theorem: one IOCTL creation from the
initial state - counter lands at 2, the returned id is ConnectorIndex + 1,
and the wasted id 2 belongs to no monitor. -/
theorem returned_id_double_increment_nowrap_witness :
    ((ExpandScreenEvtIoDeviceControl IOCTL_EXPANDSCREEN_CREATE_MONITOR
        ⟨⟨2560, 1600, 60⟩, STATUS_SUCCESS, STATUS_SUCCESS,
          ⟨STATUS_SUCCESS, STATUS_SUCCESS, STATUS_SUCCESS⟩⟩
        initialState).state.monitorIdCounter =
      (initialState.monitorIdCounter + 2) % 4294967296 ∧
      (⟨2, 0⟩ : EXPANDSCREEN_CREATE_MONITOR_OUTPUT).MonitorId =
        ((CreateMonitor ⟨STATUS_SUCCESS, STATUS_SUCCESS, STATUS_SUCCESS⟩
            initialState).connectorIndex + 1) % 4294967296) ∧
    2 ∉ (run [DriverEvent.deviceControl IOCTL_EXPANDSCREEN_CREATE_MONITOR
        ⟨⟨2560, 1600, 60⟩, STATUS_SUCCESS, STATUS_SUCCESS,
          ⟨STATUS_SUCCESS, STATUS_SUCCESS, STATUS_SUCCESS⟩⟩] initialState).monitors := by
  obtain ⟨hloc, hglob⟩ := returned_id_double_increment_nowrap
    [DriverEvent.deviceControl IOCTL_EXPANDSCREEN_CREATE_MONITOR
      ⟨⟨2560, 1600, 60⟩, STATUS_SUCCESS, STATUS_SUCCESS,
        ⟨STATUS_SUCCESS, STATUS_SUCCESS, STATUS_SUCCESS⟩⟩]
    ⟨⟨2560, 1600, 60⟩, STATUS_SUCCESS, STATUS_SUCCESS,
      ⟨STATUS_SUCCESS, STATUS_SUCCESS, STATUS_SUCCESS⟩⟩ initialState ⟨2, 0⟩
    (by decide)
  exact ⟨hloc (by decide) (by decide), hglob 2 (by decide)⟩
